import Mathlib

/-!
Shallow embedding of the four Python example scripts of the
TilingWindowManager repository (src/examples/ipc/python): the streaming
consumers `auto_tiler.py` / `window_monitor.py` and the one-shot query
scripts `window_info.py` / `workspace_status.py`.

JSON values decoded by `json.loads` are modelled by the inductive `Json`;
Python `dict.get` (raising `AttributeError` on non-dict receivers) by
`Json.dget`; the read loop of the streaming scripts by `runSession` over a
list of stream items, where a `KeyboardInterrupt` arriving at a suspension
point is an explicit `StreamItem.interrupt` element.

Model caveats, stated once here: number literals are modelled as integers
(float and exponent literals are rejected by the model parser; every line
appearing in the claims uses integer numerals only, and leading zeros are
accepted permissively); `\u` escapes decode a single code unit (surrogate
pairs are not combined); real timestamps (`datetime.now()`) are omitted
from the dispatch records since no claim mentions them.
-/

/-- A decoded JSON value, as produced by `json.loads`: Python `None`,
`bool`, `int`, `str`, `list` and `dict` (insertion-ordered, unique keys). -/
inductive Json where
  | null : Json
  | bool (b : Bool) : Json
  | num (n : Int) : Json
  | str (s : String) : Json
  | arr (xs : List Json) : Json
  | obj (fields : List (String × Json)) : Json

/-- JSON whitespace accepted between tokens by `json.loads`. -/
def isJsonWs (c : Char) : Bool :=
  c = ' ' || c = '\t' || c = '\n' || c = '\r'

/-- Drop leading JSON whitespace. -/
def skipWs (cs : List Char) : List Char :=
  cs.dropWhile isJsonWs

/-- Whitespace stripped from both ends by Python `str.strip()` (the ASCII
whitespace characters; exotic unicode spaces do not occur in the claims). -/
def isPySpace (c : Char) : Bool :=
  c = ' ' || c = '\t' || c = '\n' || c = '\r' || c = '\x0b' || c = '\x0c'

/-- Model of Python `str.strip()`. -/
def pyStrip (s : String) : String :=
  String.mk (((s.data.dropWhile isPySpace).reverse.dropWhile isPySpace).reverse)

/-- Insert a key into an object, overwriting an existing occurrence in
place, as Python dict construction does for duplicate JSON keys. -/
def insertKey : List (String × Json) → String → Json → List (String × Json)
  | [], k, v => [(k, v)]
  | (k', v') :: rest, k, v =>
      if k' = k then (k', v) :: rest else (k', v') :: insertKey rest k v

/-- Value of a hex digit, if any. -/
def hexVal (c : Char) : Option Nat :=
  if '0' ≤ c ∧ c ≤ '9' then some (c.toNat - '0'.toNat)
  else if 'a' ≤ c ∧ c ≤ 'f' then some (c.toNat - 'a'.toNat + 10)
  else if 'A' ≤ c ∧ c ≤ 'F' then some (c.toNat - 'A'.toNat + 10)
  else none

/-- Single-character JSON string escapes. -/
def escMap (c : Char) : Option Char :=
  if c = '"' then some '"'
  else if c = '\\' then some '\\'
  else if c = '/' then some '/'
  else if c = 'b' then some '\x08'
  else if c = 'f' then some '\x0c'
  else if c = 'n' then some '\n'
  else if c = 'r' then some '\r'
  else if c = 't' then some '\t'
  else none

/-- Parse the body of a JSON string after the opening quote; returns the
decoded characters and the remaining input. -/
def parseStringChars : Nat → List Char → Except String (List Char × List Char)
  | 0, _ => .error "Unterminated string"
  | _ + 1, [] => .error "Unterminated string"
  | fuel + 1, c :: rest =>
    if c = '"' then .ok ([], rest)
    else if c = '\\' then
      match rest with
      | 'u' :: h1 :: h2 :: h3 :: h4 :: rest2 =>
        match hexVal h1, hexVal h2, hexVal h3, hexVal h4 with
        | some a, some b, some c3, some d =>
          (parseStringChars fuel rest2).map
            (fun p => (Char.ofNat (((a * 16 + b) * 16 + c3) * 16 + d) :: p.1, p.2))
        | _, _, _, _ => .error "Invalid escape"
      | e :: rest2 =>
        match escMap e with
        | some ec => (parseStringChars fuel rest2).map (fun p => (ec :: p.1, p.2))
        | none => .error "Invalid escape"
      | [] => .error "Unterminated string"
    else (parseStringChars fuel rest).map (fun p => (c :: p.1, p.2))

/-- Numeric value of a digit sequence. -/
def digitsToNat (ds : List Char) : Nat :=
  ds.foldl (fun acc c => acc * 10 + (c.toNat - '0'.toNat)) 0

/-- Parse an integer literal (model restriction: floats rejected). -/
def parseNumber (cs : List Char) : Except String (Json × List Char) :=
  let p : Bool × List Char :=
    match cs with
    | '-' :: t => (true, t)
    | _ => (false, cs)
  let ds := p.2.takeWhile Char.isDigit
  let rest := p.2.dropWhile Char.isDigit
  if ds.isEmpty then .error "Expecting value"
  else
    match rest with
    | '.' :: _ => .error "float literals out of model scope"
    | 'e' :: _ => .error "float literals out of model scope"
    | 'E' :: _ => .error "float literals out of model scope"
    | _ =>
      let n : Int := Int.ofNat (digitsToNat ds)
      .ok (.num (if p.1 then -n else n), rest)

mutual

/-- Parse one JSON value from the head of the input. -/
def parseValue : Nat → List Char → Except String (Json × List Char)
  | 0, _ => .error "Depth exceeded"
  | fuel + 1, cs =>
    match cs with
    | [] => .error "Expecting value"
    | 'n' :: 'u' :: 'l' :: 'l' :: rest => .ok (.null, rest)
    | 't' :: 'r' :: 'u' :: 'e' :: rest => .ok (.bool true, rest)
    | 'f' :: 'a' :: 'l' :: 's' :: 'e' :: rest => .ok (.bool false, rest)
    | '"' :: rest =>
      (parseStringChars (rest.length + 1) rest).map
        (fun p => (.str (String.mk p.1), p.2))
    | '[' :: rest =>
      match skipWs rest with
      | ']' :: rest2 => .ok (.arr [], rest2)
      | cs1 => parseArrayItems fuel cs1 []
    | '\x7b' :: rest =>
      match skipWs rest with
      | '\x7d' :: rest2 => .ok (.obj [], rest2)
      | cs1 => parseObjItems fuel cs1 []
    | c :: _ =>
      if c = '-' || c.isDigit then parseNumber cs else .error "Expecting value"

/-- Parse the remaining comma-separated items of a non-empty array. -/
def parseArrayItems : Nat → List Char → List Json → Except String (Json × List Char)
  | 0, _, _ => .error "Depth exceeded"
  | fuel + 1, cs, acc =>
    match parseValue fuel cs with
    | .error e => .error e
    | .ok (v, rest) =>
      match skipWs rest with
      | ',' :: rest2 => parseArrayItems fuel (skipWs rest2) (acc ++ [v])
      | ']' :: rest2 => .ok (.arr (acc ++ [v]), rest2)
      | _ => .error "Expecting comma delimiter"

/-- Parse the remaining members of a non-empty object. -/
def parseObjItems : Nat → List Char → List (String × Json) → Except String (Json × List Char)
  | 0, _, _ => .error "Depth exceeded"
  | fuel + 1, cs, acc =>
    match cs with
    | '"' :: rest =>
      match parseStringChars (rest.length + 1) rest with
      | .error e => .error e
      | .ok (kcs, rest1) =>
        match skipWs rest1 with
        | ':' :: rest2 =>
          match parseValue fuel (skipWs rest2) with
          | .error e => .error e
          | .ok (v, rest3) =>
            match skipWs rest3 with
            | ',' :: rest4 => parseObjItems fuel (skipWs rest4) (insertKey acc (String.mk kcs) v)
            | '\x7d' :: rest4 => .ok (.obj (insertKey acc (String.mk kcs) v), rest4)
            | _ => .error "Expecting comma delimiter"
        | _ => .error "Expecting colon delimiter"
    | _ => .error "Expecting property name"

end

/-- Model of `json.loads`: parse one value, allowing surrounding
whitespace, and require the input to be exhausted. -/
def Json.loads (s : String) : Except String Json :=
  match parseValue (2 * s.length + 4) (skipWs s.data) with
  | .error e => .error e
  | .ok (v, rest) =>
    if (skipWs rest).isEmpty then .ok v else .error "Extra data"

-- Raised globally: concrete runs of the model parser inside kernel-checked
-- `rfl` proofs recurse deeply.
set_option maxRecDepth 40000

/-- Python exceptions that the scripts can raise past `json.loads`:
`AttributeError` (calling `.get` on a non-dict), `TypeError` (iterating a
non-iterable), and an arbitrary exception raised from a handler body. -/
inductive PyErr where
  | attributeError : PyErr
  | typeError : PyErr
  | handlerError (msg : String) : PyErr

/-- Model of Python `dict.get(key, default)` on a decoded JSON value: on a
dict, the stored value or the default; on anything else `AttributeError`
(dict values from `json.loads` have unique keys, so first-match lookup
agrees with dict lookup). -/
def Json.dget (j : Json) (key : String) (dflt : Json) : Except PyErr Json :=
  match j with
  | .obj fields => .ok ((fields.lookup key).getD dflt)
  | _ => .error .attributeError

/-- Python `==` between a decoded JSON value and a string literal: only a
decoded string can compare equal to a `str`. -/
def pyEqStr (j : Json) (s : String) : Bool :=
  match j with
  | .str t => t = s
  | _ => false

/-- One dispatch of `window_monitor.py` (window_monitor.py:34-48): which
branch of the `if event_name == ...` chain ran, with the field values the
branch body retrieved (timestamps omitted). -/
inductive MonitorDispatch where
  | created (title workspace : Json) : MonitorDispatch
  | closed (hwnd : Json) : MonitorDispatch
  | focused (hwnd : Json) : MonitorDispatch
  | unknownEvent (name : Json) : MonitorDispatch

/-- One dispatch of `auto_tiler.py` (auto_tiler.py:30-37): the single
`window_created` branch with the fields it retrieves. -/
inductive TilerDispatch where
  | created (hwnd title workspace : Json) : TilerDispatch

/-- Branch selection of `window_monitor.py` lines 34-48 for one decoded
event: `event.get('name', 'unknown')`, `event.get('data', ...)`, then the
`if`/`elif`/`else` chain; field lookups inside a branch can raise
`AttributeError` when `data` is not a dict. -/
def monitorDispatchOf (e : Json) : Except PyErr MonitorDispatch := do
  let name ← e.dget "name" (.str "unknown")
  let data ← e.dget "data" (.obj [])
  if pyEqStr name "window_created" then
    let title ← data.dget "title" (.str "Unknown")
    let workspace ← data.dget "workspace" (.str "?")
    pure (.created title workspace)
  else if pyEqStr name "window_closed" then
    let hwnd ← data.dget "hwnd" (.str "Unknown")
    pure (.closed hwnd)
  else if pyEqStr name "window_focused" then
    let hwnd ← data.dget "hwnd" (.str "Unknown")
    pure (.focused hwnd)
  else
    pure (.unknownEvent name)

/-- `monitorDispatchOf` wrapped as a one-element dispatch list (the
monitor runs exactly one branch per decoded event). -/
def monitorDispatchL (e : Json) : Except PyErr (List MonitorDispatch) :=
  (monitorDispatchOf e).map (fun d => [d])

/-- Branch selection of `auto_tiler.py` lines 30-37: only a
`window_created` event produces a dispatch; any other decoded event is
silently ignored. -/
def tilerDispatchOf (e : Json) : Except PyErr (List TilerDispatch) := do
  let name ← e.dget "name" .null
  if pyEqStr name "window_created" then
    let data ← e.dget "data" (.obj [])
    let hwnd ← data.dget "hwnd" .null
    let title ← data.dget "title" (.str "Unknown")
    let workspace ← data.dget "workspace" (.str "?")
    pure [.created hwnd title workspace]
  else
    pure []

/-- One element of the session's input: a line read from the child's
standard output, or a `KeyboardInterrupt` delivered at that suspension
point. -/
inductive StreamItem where
  | line (s : String) : StreamItem
  | interrupt : StreamItem

/-- How a session ended: natural end of stream (the `for` loop finished),
`KeyboardInterrupt` (cancellation), or an uncaught exception reaching the
outer `except Exception` clause. -/
inductive SessionEnd where
  | eof : SessionEnd
  | cancelled : SessionEnd
  | faulted : SessionEnd
deriving Repr, DecidableEq

/-- Observable outcome of running a streaming script on its input:
dispatches in order, number of `Failed to parse event` reports,
whether `proc.terminate()` was invoked, how the loop ended, and the
value passed to `sys.exit` (a `None` return exits with status 0). -/
structure SessionResult (α : Type) where
  dispatched : List α
  parseErrors : Nat
  terminated : Bool
  ended : SessionEnd
  exit : Nat

/-- Run the handler bodies (the `print` calls, which may raise) for the
dispatches of one line: the dispatches whose handler was invoked, and
whether all of them completed without raising. -/
def emitRun (emit : α → Except PyErr Unit) : List α → List α × Bool
  | [] => ([], true)
  | d :: ds =>
    match emit d with
    | .error _ => ([d], false)
    | .ok _ =>
      let p := emitRun emit ds
      (d :: p.1, p.2)

/-- Handler bodies that never raise: models the scripts' `print` calls
completing normally. -/
def printOk : α → Except PyErr Unit := fun _ => .ok ()

/-- Outcome of the loop body for one line (auto_tiler.py:26-49,
window_monitor.py:27-52): `json.loads(line.strip())` failing is caught by
`except json.JSONDecodeError` and reported; any other exception —
from a `.get` on a non-dict or from a handler body — escapes the inner
`try` and faults the session. -/
inductive LineStep (α : Type) where
  | parseFail : LineStep α
  | fault (invoked : List α) : LineStep α
  | ok (invoked : List α) : LineStep α

/-- Process one line: decode, select branch, run handler bodies. -/
def lineStep (dOf : Json → Except PyErr (List α)) (emit : α → Except PyErr Unit)
    (s : String) : LineStep α :=
  match Json.loads (pyStrip s) with
  | .error _ => .parseFail
  | .ok e =>
    match dOf e with
    | .error _ => .fault []
    | .ok ds =>
      match emitRun emit ds with
      | (inv, true) => .ok inv
      | (inv, false) => .fault inv

/-- The read loop of the streaming scripts over the whole session input.
End of list is EOF (loop ends, function returns `None`, exit 0); an
interrupt item is `KeyboardInterrupt` (caught, `proc.terminate()`,
return 0); an uncaught exception reaches `except Exception` (return 1,
no terminate call, remaining input never consumed). -/
def runSession (dOf : Json → Except PyErr (List α)) (emit : α → Except PyErr Unit) :
    List StreamItem → SessionResult α
  | [] => ⟨[], 0, false, .eof, 0⟩
  | .interrupt :: _ => ⟨[], 0, true, .cancelled, 0⟩
  | .line s :: rest =>
    match lineStep dOf emit s with
    | .parseFail =>
      let r := runSession dOf emit rest
      ⟨r.dispatched, r.parseErrors + 1, r.terminated, r.ended, r.exit⟩
    | .fault inv => ⟨inv, 0, false, .faulted, 1⟩
    | .ok inv =>
      let r := runSession dOf emit rest
      ⟨inv ++ r.dispatched, r.parseErrors, r.terminated, r.ended, r.exit⟩

/-- `monitor_windows` of window_monitor.py, as a function of the handler
bodies' behavior and the session input. -/
def monitor_windows (emit : MonitorDispatch → Except PyErr Unit)
    (items : List StreamItem) : SessionResult MonitorDispatch :=
  runSession monitorDispatchL emit items

/-- `auto_tile` of auto_tiler.py, as a function of the handler bodies'
behavior and the session input. -/
def auto_tile (emit : TilerDispatch → Except PyErr Unit)
    (items : List StreamItem) : SessionResult TilerDispatch :=
  runSession tilerDispatchOf emit items

/-- Result of the `subprocess.run` call of window_info.py:14-19 and
workspace_status.py:14-19: either `FileNotFoundError` (the `twm`
executable is missing) or a completed process with its exit code and
captured standard output. -/
inductive SpawnResult where
  | fileNotFound : SpawnResult
  | completed (returncode : Int) (stdout : String) : SpawnResult

/-- Observable outcome of one command-path script run. `success` carries
the envelope's `data` value exactly as retrieved, plus the per-script view
built from it; `processFailed` is the non-zero-exit branch; `rejected` the
`type != 'success'` branch with the reported message; `malformedResponse`
the `except json.JSONDecodeError` branch; `toolNotFound` the
`except FileNotFoundError` branch; `fault` the final `except Exception`
branch. -/
inductive CmdOutcome (α : Type) where
  | success (data : Json) (view : α) : CmdOutcome α
  | processFailed : CmdOutcome α
  | rejected (message : Json) : CmdOutcome α
  | malformedResponse (msg : String) : CmdOutcome α
  | toolNotFound : CmdOutcome α
  | fault : CmdOutcome α

/-- The value the script passes to `sys.exit`: 0 only on the success
path, 1 on every failure path. -/
def CmdOutcome.exitCode : CmdOutcome α → Nat
  | .success _ _ => 0
  | _ => 1

/-- Whether the outcome is the JSON-decode-failure branch. -/
def CmdOutcome.isMalformed : CmdOutcome α → Bool
  | .malformedResponse _ => true
  | _ => false

/-- The field values printed by window_info.py:32-46, each retrieved with
the documented sentinel default. -/
structure WindowView where
  hwnd : Json
  title : Json
  wclass : Json
  process_name : Json
  workspace : Json
  monitor : Json
  state : Json
  rect_x : Json
  rect_y : Json
  rect_width : Json
  rect_height : Json

/-- Field retrieval of window_info.py:32-46 on the envelope's `data`
value: `window.get(...)` with defaults, then `rect = window.get('rect',
...)` and the four coordinate lookups on it. -/
def windowView (w : Json) : Except PyErr WindowView := do
  let hwnd ← w.dget "hwnd" (.str "Unknown")
  let title ← w.dget "title" (.str "Unknown")
  let wclass ← w.dget "class" (.str "Unknown")
  let process_name ← w.dget "process_name" (.str "Unknown")
  let workspace ← w.dget "workspace" (.str "?")
  let monitor ← w.dget "monitor" (.str "?")
  let state ← w.dget "state" (.str "Unknown")
  let rect ← w.dget "rect" (.obj [])
  let rect_x ← rect.dget "x" (.num 0)
  let rect_y ← rect.dget "y" (.num 0)
  let rect_width ← rect.dget "width" (.num 0)
  let rect_height ← rect.dget "height" (.num 0)
  pure ⟨hwnd, title, wclass, process_name, workspace, monitor, state,
        rect_x, rect_y, rect_width, rect_height⟩

/-- The field values printed for one workspace by
workspace_status.py:37-46, each retrieved with its sentinel default. -/
structure WorkspaceRow where
  id : Json
  name : Json
  monitor : Json
  window_count : Json
  active : Json

/-- Field retrieval of workspace_status.py:38-42 for one element of the
listing; a non-dict element raises `AttributeError` at its first `.get`. -/
def workspaceRow (ws : Json) : Except PyErr WorkspaceRow := do
  let i ← ws.dget "id" (.str "?")
  let n ← ws.dget "name" (.str "Unknown")
  let m ← ws.dget "monitor" (.str "?")
  let w ← ws.dget "window_count" (.num 0)
  let a ← ws.dget "active" (.bool false)
  pure ⟨i, n, m, w, a⟩

/-- Iterate the workspace loop body over the elements of a list, stopping
at the first element whose field retrieval raises. -/
def rowsOf : List Json → Except PyErr (List WorkspaceRow)
  | [] => .ok []
  | x :: xs =>
    match workspaceRow x with
    | .error e => .error e
    | .ok r =>
      match rowsOf xs with
      | .error e => .error e
      | .ok rs => .ok (r :: rs)

/-- The `for ws in workspaces` loop of workspace_status.py:43-52 on the
envelope's `data` value: a list is iterated element-wise; an empty dict or
empty string iterates zero times; a non-empty dict or string puts a
string in `ws`, whose `.get` raises `AttributeError`; anything else is
not iterable (`TypeError`). -/
def iterRows : Json → Except PyErr (List WorkspaceRow)
  | .arr xs => rowsOf xs
  | .obj [] => .ok []
  | .obj (_ :: _) => .error .attributeError
  | .str s => if s.isEmpty then .ok [] else .error .attributeError
  | _ => .error .typeError

/-- `get_active_window` of window_info.py:13-48: non-zero exit short
circuits before any decoding; then `json.loads(result.stdout)`; then the
`response.get('type') != 'success'` rejection branch with
`response.get('message', 'Unknown error')`; else the `data` field with
default and the printed view. -/
def get_active_window (r : SpawnResult) : CmdOutcome WindowView :=
  match r with
  | .fileNotFound => .toolNotFound
  | .completed rc out =>
    if rc ≠ 0 then .processFailed
    else
      match Json.loads out with
      | .error e => .malformedResponse e
      | .ok response =>
        match response.dget "type" .null with
        | .error _ => .fault
        | .ok ty =>
          if pyEqStr ty "success" then
            match response.dget "data" (.obj []) with
            | .error _ => .fault
            | .ok data =>
              match windowView data with
              | .error _ => .fault
              | .ok v => .success data v
          else
            match response.dget "message" (.str "Unknown error") with
            | .error _ => .fault
            | .ok m => .rejected m

/-- `get_workspaces` of workspace_status.py:13-52: same envelope handling
as `get_active_window`, with `response.get('data', [])` and the workspace
iteration. -/
def get_workspaces (r : SpawnResult) : CmdOutcome (List WorkspaceRow) :=
  match r with
  | .fileNotFound => .toolNotFound
  | .completed rc out =>
    if rc ≠ 0 then .processFailed
    else
      match Json.loads out with
      | .error e => .malformedResponse e
      | .ok response =>
        match response.dget "type" .null with
        | .error _ => .fault
        | .ok ty =>
          if pyEqStr ty "success" then
            match response.dget "data" (.arr []) with
            | .error _ => .fault
            | .ok data =>
              match iterRows data with
              | .error _ => .fault
              | .ok rows => .success data rows
          else
            match response.dget "message" (.str "Unknown error") with
            | .error _ => .fault
            | .ok m => .rejected m

/-- Reduction of `Except` bind on a success value (the shape the `do`
blocks above desugar to). -/
theorem except_bind_ok (a : α) (f : α → Except ε β) :
    (Except.ok a : Except ε α) >>= f = f a := rfl

/-- Reduction of `Except` pure (the shape `do` blocks end in). -/
theorem except_pure_ok (a : α) : (pure a : Except ε α) = .ok a := rfl

/-- Handler bodies that never raise invoke every dispatch. -/
theorem emitRun_printOk (ds : List α) : emitRun printOk ds = (ds, true) := by
  induction ds with
  | nil => rfl
  | cons d ds ih => simp [emitRun, printOk, ih]

/-- A line whose stripped text fails JSON decoding is the
`except json.JSONDecodeError` case. -/
theorem lineStep_parse_error (dOf : Json → Except PyErr (List α))
    (emit : α → Except PyErr Unit) (s m : String)
    (h : Json.loads (pyStrip s) = .error m) :
    lineStep dOf emit s = .parseFail := by
  simp [lineStep, h]

/-- A line that decodes, selects a branch, and whose handler bodies all
complete is an `ok` step. -/
theorem lineStep_ok (dOf : Json → Except PyErr (List α))
    (emit : α → Except PyErr Unit) (s : String) (e : Json) (ds inv : List α)
    (h1 : Json.loads (pyStrip s) = .ok e) (h2 : dOf e = .ok ds)
    (h3 : emitRun emit ds = (inv, true)) :
    lineStep dOf emit s = .ok inv := by
  simp [lineStep, h1, h2, h3]

/-- A line that decodes but whose handler body raises is a faulting step. -/
theorem lineStep_emit_fault (dOf : Json → Except PyErr (List α))
    (emit : α → Except PyErr Unit) (s : String) (e : Json) (ds inv : List α)
    (h1 : Json.loads (pyStrip s) = .ok e) (h2 : dOf e = .ok ds)
    (h3 : emitRun emit ds = (inv, false)) :
    lineStep dOf emit s = .fault inv := by
  simp [lineStep, h1, h2, h3]

/-- EOF: the loop ends, the function returns `None`, exit status 0. -/
theorem runSession_nil (dOf : Json → Except PyErr (List α))
    (emit : α → Except PyErr Unit) :
    runSession dOf emit [] = ⟨[], 0, false, .eof, 0⟩ := rfl

/-- `KeyboardInterrupt`: terminate the child, return 0, consume nothing
further. -/
theorem runSession_interrupt (dOf : Json → Except PyErr (List α))
    (emit : α → Except PyErr Unit) (items : List StreamItem) :
    runSession dOf emit (.interrupt :: items) = ⟨[], 0, true, .cancelled, 0⟩ := rfl

/-- A decode failure is reported and the loop continues with the rest. -/
theorem runSession_parseFail (dOf : Json → Except PyErr (List α))
    (emit : α → Except PyErr Unit) (s : String) (rest : List StreamItem)
    (h : lineStep dOf emit s = .parseFail) :
    runSession dOf emit (.line s :: rest) =
      ⟨(runSession dOf emit rest).dispatched,
       (runSession dOf emit rest).parseErrors + 1,
       (runSession dOf emit rest).terminated,
       (runSession dOf emit rest).ended,
       (runSession dOf emit rest).exit⟩ := by
  simp [runSession, h]

/-- A successfully handled line prepends its dispatches and the loop
continues with the rest. -/
theorem runSession_okStep (dOf : Json → Except PyErr (List α))
    (emit : α → Except PyErr Unit) (s : String) (inv : List α)
    (rest : List StreamItem) (h : lineStep dOf emit s = .ok inv) :
    runSession dOf emit (.line s :: rest) =
      ⟨inv ++ (runSession dOf emit rest).dispatched,
       (runSession dOf emit rest).parseErrors,
       (runSession dOf emit rest).terminated,
       (runSession dOf emit rest).ended,
       (runSession dOf emit rest).exit⟩ := by
  simp [runSession, h]

/-- An uncaught exception ends the session at once with exit status 1;
the remaining input is never consumed. -/
theorem runSession_faultStep (dOf : Json → Except PyErr (List α))
    (emit : α → Except PyErr Unit) (s : String) (inv : List α)
    (rest : List StreamItem) (h : lineStep dOf emit s = .fault inv) :
    runSession dOf emit (.line s :: rest) = ⟨inv, 0, false, .faulted, 1⟩ := by
  simp [runSession, h]

/-- Stripping a whitespace-only string yields the empty string. -/
theorem pyStrip_all_space (s : String) (h : ∀ c ∈ s.data, isPySpace c = true) :
    pyStrip s = "" := by
  unfold pyStrip
  have h1 : s.data.dropWhile isPySpace = [] := List.dropWhile_eq_nil_iff.mpr h
  rw [h1]
  decide

/-- The spec's sample `window_created` event line. -/
def lineCreated : String :=
  "\x7b\"name\": \"window_created\", \"data\": \x7b\"hwnd\": 123, \"title\": \"Notes\", \"workspace\": 2\x7d\x7d"

/-- A second well-formed `window_created` event line. -/
def lineCreated2 : String :=
  "\x7b\"name\": \"window_created\", \"data\": \x7b\"hwnd\": 456, \"title\": \"Editor\", \"workspace\": 1\x7d\x7d"

/-- A well-formed `window_closed` event line with no `data` payload. -/
def lineClosed : String :=
  "\x7b\"name\": \"window_closed\"\x7d"

/-- A line that fails JSON decoding. -/
def lineMalformed : String := "not json"

/-- C2: every command-path invocation whose process exits non-zero yields
the process-failure outcome with exit status 1, for any captured standard
output whatsoever — in particular the output is never JSON-decoded, so
unparsable output still gives `processFailed`, not `malformedResponse`. -/
theorem nonzero_exit_process_failed :
    ∀ (rc : Int) (out : String), rc ≠ 0 →
      get_active_window (.completed rc out) = .processFailed ∧
      (get_active_window (.completed rc out)).exitCode = 1 ∧
      get_workspaces (.completed rc out) = .processFailed ∧
      (get_workspaces (.completed rc out)).exitCode = 1 := by
  intro rc out h
  simp [get_active_window, get_workspaces, h, CmdOutcome.exitCode]

/-- C2 witness: exit code 1 with unparsable output is `processFailed`. -/
theorem nonzero_exit_process_failed_witness :
    get_active_window (.completed 1 "garbage") = .processFailed ∧
    (get_active_window (.completed 1 "garbage")).exitCode = 1 ∧
    get_workspaces (.completed 1 "garbage") = .processFailed ∧
    (get_workspaces (.completed 1 "garbage")).exitCode = 1 :=
  nonzero_exit_process_failed 1 "garbage" (by decide)

/-- C3: on exit code 0, an envelope of type "success" makes the query
succeed with exactly the envelope's `data` value, and an envelope of type
"error" makes it fail on the rejection branch carrying the envelope's
`message` string. -/
theorem success_and_error_envelope :
    (∀ (out : String) (fs d : List (String × Json)) (v : WindowView),
       Json.loads out = .ok (.obj fs) →
       fs.lookup "type" = some (.str "success") →
       (fs.lookup "data").getD (.obj []) = .obj d →
       windowView (.obj d) = .ok v →
       get_active_window (.completed 0 out) = .success (.obj d) v) ∧
    (∀ (out : String) (fs : List (String × Json)) (xs : List Json)
       (rows : List WorkspaceRow),
       Json.loads out = .ok (.obj fs) →
       fs.lookup "type" = some (.str "success") →
       (fs.lookup "data").getD (.arr []) = .arr xs →
       rowsOf xs = .ok rows →
       get_workspaces (.completed 0 out) = .success (.arr xs) rows) ∧
    (∀ (out : String) (fs : List (String × Json)),
       Json.loads out = .ok (.obj fs) →
       fs.lookup "type" = some (.str "error") →
       get_active_window (.completed 0 out) =
         .rejected ((fs.lookup "message").getD (.str "Unknown error")) ∧
       get_workspaces (.completed 0 out) =
         .rejected ((fs.lookup "message").getD (.str "Unknown error"))) := by
  refine ⟨?_, ?_, ?_⟩
  · intro out fs d v h1 h2 h3 h4
    simp [get_active_window, Json.dget, pyEqStr, h1, h2, h3, h4]
  · intro out fs xs rows h1 h2 h3 h4
    simp [get_workspaces, Json.dget, pyEqStr, iterRows, h1, h2, h3, h4]
  · intro out fs h1 h2
    simp [get_active_window, get_workspaces, Json.dget, pyEqStr, h1, h2]

/-- C3 witness: the spec's two sample envelopes, decoded end to end. -/
theorem success_and_error_envelope_witness :
    get_active_window (.completed 0 "\x7b\"type\": \"success\", \"data\": \x7b\"id\": 1\x7d\x7d") =
      .success (.obj [("id", .num 1)])
        ⟨.str "Unknown", .str "Unknown", .str "Unknown", .str "Unknown",
         .str "?", .str "?", .str "Unknown", .num 0, .num 0, .num 0, .num 0⟩ ∧
    get_active_window (.completed 0 "\x7b\"type\": \"error\", \"message\": \"no such workspace\"\x7d") =
      .rejected (.str "no such workspace") :=
  ⟨success_and_error_envelope.1
     "\x7b\"type\": \"success\", \"data\": \x7b\"id\": 1\x7d\x7d"
     [("type", .str "success"), ("data", .obj [("id", .num 1)])]
     [("id", .num 1)] _ rfl rfl rfl rfl,
   (success_and_error_envelope.2.2
     "\x7b\"type\": \"error\", \"message\": \"no such workspace\"\x7d"
     [("type", .str "error"), ("message", .str "no such workspace")]
     rfl rfl).1⟩

/-- C4 counterexample: an envelope whose `type` is "bogus" (neither
"success" nor "error") does not produce the decode-failure outcome the
claim requires; it takes the same rejection branch as a type "error"
envelope, reporting the envelope's message (or "Unknown error"). -/
theorem unknown_type_rejected_cex :
    get_active_window (.completed 0 "\x7b\"type\": \"bogus\", \"message\": \"m\"\x7d") =
      .rejected (.str "m") ∧
    (get_active_window
      (.completed 0 "\x7b\"type\": \"bogus\", \"message\": \"m\"\x7d")).isMalformed = false ∧
    get_workspaces (.completed 0 "\x7b\"type\": \"bogus\"\x7d") =
      .rejected (.str "Unknown error") ∧
    (get_workspaces (.completed 0 "\x7b\"type\": \"bogus\"\x7d")).isMalformed = false :=
  ⟨rfl, rfl, rfl, rfl⟩

/-- C4 as amended: every envelope whose `type` field is not the string
"success" — whether "error", absent, or any other value — takes the single
rejection branch, failing with exit status 1 and the envelope's `message`
field (default "Unknown error"); the decode-failure outcome arises only
when JSON decoding itself fails. -/
theorem non_success_type_rejected :
    ∀ (out : String) (fs : List (String × Json)),
      Json.loads out = .ok (.obj fs) →
      pyEqStr ((fs.lookup "type").getD .null) "success" = false →
      get_active_window (.completed 0 out) =
        .rejected ((fs.lookup "message").getD (.str "Unknown error")) ∧
      (get_active_window (.completed 0 out)).exitCode = 1 ∧
      get_workspaces (.completed 0 out) =
        .rejected ((fs.lookup "message").getD (.str "Unknown error")) ∧
      (get_workspaces (.completed 0 out)).exitCode = 1 := by
  intro out fs h1 h2
  simp [get_active_window, get_workspaces, Json.dget, h1, h2, CmdOutcome.exitCode]

/-- C4 witness: the "bogus"-type envelope goes down the rejection branch
with exit status 1. -/
theorem non_success_type_rejected_witness :
    get_active_window (.completed 0 "\x7b\"type\": \"bogus\", \"message\": \"m\"\x7d") =
      .rejected (.str "m") ∧
    (get_active_window
      (.completed 0 "\x7b\"type\": \"bogus\", \"message\": \"m\"\x7d")).exitCode = 1 ∧
    get_workspaces (.completed 0 "\x7b\"type\": \"bogus\", \"message\": \"m\"\x7d") =
      .rejected (.str "m") ∧
    (get_workspaces
      (.completed 0 "\x7b\"type\": \"bogus\", \"message\": \"m\"\x7d")).exitCode = 1 :=
  non_success_type_rejected "\x7b\"type\": \"bogus\", \"message\": \"m\"\x7d"
    [("type", .str "bogus"), ("message", .str "m")] rfl rfl

/-- C8: absent fields are retrieved as the documented sentinel defaults
rather than failing — title/class/process_name/state default to "Unknown",
workspace/monitor to "?", the rect coordinates and window_count to 0, and
active to false — and the spec's two-entry sample workspace listing
decodes to rows with active true/false and window_count 3/0. -/
theorem sentinel_defaults_and_sample :
    (∀ (fs rs : List (String × Json)),
       (fs.lookup "rect").getD (.obj []) = .obj rs →
       windowView (.obj fs) = .ok
         ⟨(fs.lookup "hwnd").getD (.str "Unknown"),
          (fs.lookup "title").getD (.str "Unknown"),
          (fs.lookup "class").getD (.str "Unknown"),
          (fs.lookup "process_name").getD (.str "Unknown"),
          (fs.lookup "workspace").getD (.str "?"),
          (fs.lookup "monitor").getD (.str "?"),
          (fs.lookup "state").getD (.str "Unknown"),
          (rs.lookup "x").getD (.num 0),
          (rs.lookup "y").getD (.num 0),
          (rs.lookup "width").getD (.num 0),
          (rs.lookup "height").getD (.num 0)⟩) ∧
    (∀ (ws : List (String × Json)),
       workspaceRow (.obj ws) = .ok
         ⟨(ws.lookup "id").getD (.str "?"),
          (ws.lookup "name").getD (.str "Unknown"),
          (ws.lookup "monitor").getD (.str "?"),
          (ws.lookup "window_count").getD (.num 0),
          (ws.lookup "active").getD (.bool false)⟩) ∧
    get_workspaces (.completed 0 "\x7b\"type\": \"success\", \"data\": [\x7b\"id\":1,\"name\":\"main\",\"monitor\":0,\"window_count\":3,\"active\":true\x7d,\x7b\"id\":2,\"name\":\"side\",\"monitor\":1,\"window_count\":0,\"active\":false\x7d]\x7d") =
      .success
        (.arr [.obj [("id", .num 1), ("name", .str "main"), ("monitor", .num 0),
                     ("window_count", .num 3), ("active", .bool true)],
               .obj [("id", .num 2), ("name", .str "side"), ("monitor", .num 1),
                     ("window_count", .num 0), ("active", .bool false)]])
        [⟨.num 1, .str "main", .num 0, .num 3, .bool true⟩,
         ⟨.num 2, .str "side", .num 1, .num 0, .bool false⟩] := by
  refine ⟨?_, ?_, rfl⟩
  · intro fs rs h
    simp [windowView, Json.dget, except_bind_ok, h]
  · intro ws
    simp [workspaceRow, Json.dget, except_bind_ok]

/-- C8 witness: the fully-absent payloads give exactly the sentinel
defaults. -/
theorem sentinel_defaults_and_sample_witness :
    windowView (.obj []) = .ok
      ⟨.str "Unknown", .str "Unknown", .str "Unknown", .str "Unknown",
       .str "?", .str "?", .str "Unknown", .num 0, .num 0, .num 0, .num 0⟩ ∧
    workspaceRow (.obj []) = .ok
      ⟨.str "?", .str "Unknown", .str "?", .num 0, .bool false⟩ :=
  ⟨sentinel_defaults_and_sample.1 [] [] rfl,
   sentinel_defaults_and_sample.2.1 []⟩

/-- C7: for the event line
`\x7b"name":"window_created","data":\x7b"hwnd":123,"title":"Notes","workspace":2\x7d\x7d`
exactly one dispatch branch runs: the auto-tiler invokes only its
`window_created` handler with hwnd=123, title="Notes", workspace=2, and
the monitor invokes only its `window_created` branch (which retrieves
title="Notes", workspace=2); neither the default branch nor any other
event's branch runs. -/
theorem window_created_exact_dispatch :
    auto_tile printOk [.line lineCreated] =
      ⟨[.created (.num 123) (.str "Notes") (.num 2)], 0, false, .eof, 0⟩ ∧
    monitor_windows printOk [.line lineCreated] =
      ⟨[.created (.str "Notes") (.num 2)], 0, false, .eof, 0⟩ :=
  ⟨rfl, rfl⟩

/-- C6 counterexample: a whitespace-only line is not silently skipped —
`json.loads(line.strip())` sees the empty string, raises, and the script
reports one decode error (the claim requires zero); the session does
continue, ending at EOF. -/
theorem whitespace_line_error_cex :
    monitor_windows printOk [.line "   "] = ⟨[], 1, false, .eof, 0⟩ ∧
    auto_tile printOk [.line " \t "] = ⟨[], 1, false, .eof, 0⟩ :=
  ⟨rfl, rfl⟩

/-- C6 as amended: a whitespace-only line produces no event, but it is
reported as one recoverable decode error (not skipped silently); the
session continues with the remaining input unchanged in every other
respect. -/
theorem whitespace_line_decode_error :
    ∀ (s : String) (rest : List StreamItem)
      (emitM : MonitorDispatch → Except PyErr Unit)
      (emitT : TilerDispatch → Except PyErr Unit),
      (∀ c ∈ s.data, isPySpace c = true) →
      monitor_windows emitM (.line s :: rest) =
        ⟨(monitor_windows emitM rest).dispatched,
         (monitor_windows emitM rest).parseErrors + 1,
         (monitor_windows emitM rest).terminated,
         (monitor_windows emitM rest).ended,
         (monitor_windows emitM rest).exit⟩ ∧
      auto_tile emitT (.line s :: rest) =
        ⟨(auto_tile emitT rest).dispatched,
         (auto_tile emitT rest).parseErrors + 1,
         (auto_tile emitT rest).terminated,
         (auto_tile emitT rest).ended,
         (auto_tile emitT rest).exit⟩ := by
  intro s rest emitM emitT h
  have hs : Json.loads (pyStrip s) = .error "Expecting value" := by
    rw [pyStrip_all_space s h]
    rfl
  exact ⟨runSession_parseFail _ _ _ _ (lineStep_parse_error _ _ _ _ hs),
         runSession_parseFail _ _ _ _ (lineStep_parse_error _ _ _ _ hs)⟩

/-- C6 witness: the single-space line on an otherwise empty stream. -/
theorem whitespace_line_decode_error_witness :
    monitor_windows printOk [.line " "] =
      ⟨(monitor_windows printOk []).dispatched,
       (monitor_windows printOk []).parseErrors + 1,
       (monitor_windows printOk []).terminated,
       (monitor_windows printOk []).ended,
       (monitor_windows printOk []).exit⟩ ∧
    auto_tile printOk [.line " "] =
      ⟨(auto_tile printOk []).dispatched,
       (auto_tile printOk []).parseErrors + 1,
       (auto_tile printOk []).terminated,
       (auto_tile printOk []).ended,
       (auto_tile printOk []).exit⟩ :=
  whitespace_line_decode_error " " [] printOk printOk (by decide)

/-- Handler bodies that raise while handling a `window_closed` event:
models a `print` in that branch failing (e.g. an unencodable title
downstream). -/
def emitBoom : MonitorDispatch → Except PyErr Unit
  | .closed _ => .error (.handlerError "boom")
  | _ => .ok ()

/-- C5 counterexample: when the handler body for the second event raises,
the exception is not caught at the dispatch boundary — it escapes the
inner `try`, the session ends on the `except Exception` path with exit
status 1, and the third line is never consumed, contradicting the claimed
report-and-continue behavior. -/
theorem handler_raise_terminates_cex :
    monitor_windows emitBoom [.line lineCreated, .line lineClosed, .line lineCreated2] =
      ⟨[.created (.str "Notes") (.num 2), .closed (.str "Unknown")],
       0, false, .faulted, 1⟩ :=
  rfl

/-- C5 as amended: a handler body that raises is not caught at the
dispatch boundary; the exception propagates out of the read loop to the
session-level `except Exception` handler, which reports it, and the
session terminates with exit status 1 without consuming any further
lines. -/
theorem handler_raise_faults_session :
    (∀ (emit : MonitorDispatch → Except PyErr Unit) (s : String) (e : Json)
       (d : MonitorDispatch) (pe : PyErr) (rest : List StreamItem),
       Json.loads (pyStrip s) = .ok e →
       monitorDispatchOf e = .ok d →
       emit d = .error pe →
       monitor_windows emit (.line s :: rest) = ⟨[d], 0, false, .faulted, 1⟩) ∧
    (∀ (emit : TilerDispatch → Except PyErr Unit) (s : String) (e : Json)
       (t : TilerDispatch) (pe : PyErr) (rest : List StreamItem),
       Json.loads (pyStrip s) = .ok e →
       tilerDispatchOf e = .ok [t] →
       emit t = .error pe →
       auto_tile emit (.line s :: rest) = ⟨[t], 0, false, .faulted, 1⟩) := by
  constructor
  · intro emit s e d pe rest h1 h2 h3
    have hL : monitorDispatchL e = .ok [d] := by simp [monitorDispatchL, h2, Except.map]
    have hE : emitRun emit [d] = ([d], false) := by simp [emitRun, h3]
    exact runSession_faultStep _ _ _ _ _ (lineStep_emit_fault _ _ _ _ _ _ h1 hL hE)
  · intro emit s e t pe rest h1 h2 h3
    have hE : emitRun emit [t] = ([t], false) := by simp [emitRun, h3]
    exact runSession_faultStep _ _ _ _ _ (lineStep_emit_fault _ _ _ _ _ _ h1 h2 hE)

/-- C5 witness: a raising `window_closed` handler body faults the monitor
session at that line. -/
theorem handler_raise_faults_session_witness :
    monitor_windows emitBoom [.line lineClosed, .line lineCreated2] =
      ⟨[.closed (.str "Unknown")], 0, false, .faulted, 1⟩ :=
  handler_raise_faults_session.1 emitBoom lineClosed
    (.obj [("name", .str "window_closed")]) (.closed (.str "Unknown"))
    (.handlerError "boom") [.line lineCreated2] rfl rfl rfl

/-- C1: a session input of one undecodable line between two well-formed
event lines dispatches exactly the two events, in the order their lines
appeared, reports exactly one recoverable decode error, and runs to EOF
without terminating early — in both the monitor and the auto-tiler
(taking event lines each program dispatches: any decoded event for the
monitor, `window_created` events for the auto-tiler). -/
theorem malformed_line_between_events :
    ∀ (l1 l2 l3 : String) (e1 e3 : Json) (m : String)
      (d1 d3 : MonitorDispatch) (t1 t3 : TilerDispatch),
      Json.loads (pyStrip l1) = .ok e1 →
      Json.loads (pyStrip l2) = .error m →
      Json.loads (pyStrip l3) = .ok e3 →
      monitorDispatchOf e1 = .ok d1 →
      monitorDispatchOf e3 = .ok d3 →
      tilerDispatchOf e1 = .ok [t1] →
      tilerDispatchOf e3 = .ok [t3] →
      monitor_windows printOk [.line l1, .line l2, .line l3] =
        ⟨[d1, d3], 1, false, .eof, 0⟩ ∧
      auto_tile printOk [.line l1, .line l2, .line l3] =
        ⟨[t1, t3], 1, false, .eof, 0⟩ := by
  intro l1 l2 l3 e1 e3 m d1 d3 t1 t3 h1 h2 h3 hm1 hm3 ht1 ht3
  have hL1 : monitorDispatchL e1 = .ok [d1] := by simp [monitorDispatchL, hm1, Except.map]
  have hL3 : monitorDispatchL e3 = .ok [d3] := by simp [monitorDispatchL, hm3, Except.map]
  constructor
  · show runSession monitorDispatchL printOk _ = _
    rw [runSession_okStep _ _ _ _ _ (lineStep_ok _ _ _ _ _ _ h1 hL1 (emitRun_printOk _)),
        runSession_parseFail _ _ _ _ (lineStep_parse_error _ _ _ _ h2),
        runSession_okStep _ _ _ _ _ (lineStep_ok _ _ _ _ _ _ h3 hL3 (emitRun_printOk _)),
        runSession_nil]
    simp
  · show runSession tilerDispatchOf printOk _ = _
    rw [runSession_okStep _ _ _ _ _ (lineStep_ok _ _ _ _ _ _ h1 ht1 (emitRun_printOk _)),
        runSession_parseFail _ _ _ _ (lineStep_parse_error _ _ _ _ h2),
        runSession_okStep _ _ _ _ _ (lineStep_ok _ _ _ _ _ _ h3 ht3 (emitRun_printOk _)),
        runSession_nil]
    simp

/-- C1 witness: two concrete `window_created` lines around "not json". -/
theorem malformed_line_between_events_witness :
    monitor_windows printOk [.line lineCreated, .line lineMalformed, .line lineCreated2] =
      ⟨[.created (.str "Notes") (.num 2), .created (.str "Editor") (.num 1)],
       1, false, .eof, 0⟩ ∧
    auto_tile printOk [.line lineCreated, .line lineMalformed, .line lineCreated2] =
      ⟨[.created (.num 123) (.str "Notes") (.num 2),
        .created (.num 456) (.str "Editor") (.num 1)],
       1, false, .eof, 0⟩ :=
  malformed_line_between_events lineCreated lineMalformed lineCreated2
    (.obj [("name", .str "window_created"),
           ("data", .obj [("hwnd", .num 123), ("title", .str "Notes"),
                          ("workspace", .num 2)])])
    (.obj [("name", .str "window_created"),
           ("data", .obj [("hwnd", .num 456), ("title", .str "Editor"),
                          ("workspace", .num 1)])])
    "Expecting value"
    (.created (.str "Notes") (.num 2)) (.created (.str "Editor") (.num 1))
    (.created (.num 123) (.str "Notes") (.num 2))
    (.created (.num 456) (.str "Editor") (.num 1))
    rfl rfl rfl rfl rfl rfl rfl

/-- C10 (implicit): a decoded event object whose `name` key is absent or
matches no registered branch neither fails the session nor reports an
error — the monitor routes it to the default branch (with the name
defaulting to "unknown" when absent), while the auto-tiler silently
ignores it; both continue with the remaining input. -/
theorem unregistered_event_default_route :
    ∀ (l : String) (fs : List (String × Json)) (rest : List StreamItem),
      Json.loads (pyStrip l) = .ok (.obj fs) →
      (fs.lookup "name" = none →
        monitor_windows printOk (.line l :: rest) =
          ⟨.unknownEvent (.str "unknown") :: (monitor_windows printOk rest).dispatched,
           (monitor_windows printOk rest).parseErrors,
           (monitor_windows printOk rest).terminated,
           (monitor_windows printOk rest).ended,
           (monitor_windows printOk rest).exit⟩ ∧
        auto_tile printOk (.line l :: rest) = auto_tile printOk rest) ∧
      (∀ n, fs.lookup "name" = some n →
        pyEqStr n "window_created" = false →
        auto_tile printOk (.line l :: rest) = auto_tile printOk rest) ∧
      (∀ n, fs.lookup "name" = some n →
        pyEqStr n "window_created" = false →
        pyEqStr n "window_closed" = false →
        pyEqStr n "window_focused" = false →
        monitor_windows printOk (.line l :: rest) =
          ⟨.unknownEvent n :: (monitor_windows printOk rest).dispatched,
           (monitor_windows printOk rest).parseErrors,
           (monitor_windows printOk rest).terminated,
           (monitor_windows printOk rest).ended,
           (monitor_windows printOk rest).exit⟩) := by
  intro l fs rest hl
  refine ⟨fun hn => ⟨?_, ?_⟩, fun n hn hc => ?_, fun n hn hc1 hc2 hc3 => ?_⟩
  · have hd : monitorDispatchOf (.obj fs) = .ok (.unknownEvent (.str "unknown")) := by
      have c1 : pyEqStr (.str "unknown") "window_created" = false := rfl
      have c2 : pyEqStr (.str "unknown") "window_closed" = false := rfl
      have c3 : pyEqStr (.str "unknown") "window_focused" = false := rfl
      simp [monitorDispatchOf, Json.dget, hn, c1, c2, c3, except_bind_ok, except_pure_ok]
    have hL : monitorDispatchL (.obj fs) = .ok [.unknownEvent (.str "unknown")] := by
      simp [monitorDispatchL, hd, Except.map]
    have hstep := runSession_okStep monitorDispatchL printOk l
      [.unknownEvent (.str "unknown")] rest
      (lineStep_ok _ _ _ _ _ _ hl hL (emitRun_printOk _))
    simpa [monitor_windows] using hstep
  · have hd : tilerDispatchOf (.obj fs) = .ok [] := by
      simp [tilerDispatchOf, Json.dget, hn, pyEqStr, except_bind_ok, except_pure_ok]
    have hstep := runSession_okStep tilerDispatchOf printOk l [] rest
      (lineStep_ok _ _ _ _ _ _ hl hd (emitRun_printOk _))
    simpa [auto_tile] using hstep
  · have hd : tilerDispatchOf (.obj fs) = .ok [] := by
      simp [tilerDispatchOf, Json.dget, hn, hc, except_bind_ok, except_pure_ok]
    have hstep := runSession_okStep tilerDispatchOf printOk l [] rest
      (lineStep_ok _ _ _ _ _ _ hl hd (emitRun_printOk _))
    simpa [auto_tile] using hstep
  · have hd : monitorDispatchOf (.obj fs) = .ok (.unknownEvent n) := by
      simp [monitorDispatchOf, Json.dget, hn, hc1, hc2, hc3, except_bind_ok, except_pure_ok]
    have hL : monitorDispatchL (.obj fs) = .ok [.unknownEvent n] := by
      simp [monitorDispatchL, hd, Except.map]
    have hstep := runSession_okStep monitorDispatchL printOk l [.unknownEvent n] rest
      (lineStep_ok _ _ _ _ _ _ hl hL (emitRun_printOk _))
    simpa [monitor_windows] using hstep

/-- C10 witness: an event with no `name` key and an event named "bar". -/
theorem unregistered_event_default_route_witness :
    monitor_windows printOk [.line "\x7b\"foo\": 1\x7d"] =
      ⟨[.unknownEvent (.str "unknown")], 0, false, .eof, 0⟩ ∧
    auto_tile printOk [.line "\x7b\"foo\": 1\x7d"] = auto_tile printOk [] ∧
    auto_tile printOk [.line "\x7b\"name\": \"bar\"\x7d"] = auto_tile printOk [] ∧
    monitor_windows printOk [.line "\x7b\"name\": \"bar\"\x7d"] =
      ⟨[.unknownEvent (.str "bar")], 0, false, .eof, 0⟩ :=
  ⟨((unregistered_event_default_route "\x7b\"foo\": 1\x7d" [("foo", .num 1)] [] rfl).1 rfl).1,
   ((unregistered_event_default_route "\x7b\"foo\": 1\x7d" [("foo", .num 1)] [] rfl).1 rfl).2,
   (unregistered_event_default_route "\x7b\"name\": \"bar\"\x7d" [("name", .str "bar")] []
      rfl).2.1 (.str "bar") rfl rfl,
   (unregistered_event_default_route "\x7b\"name\": \"bar\"\x7d" [("name", .str "bar")] []
      rfl).2.2 (.str "bar") rfl rfl rfl rfl⟩

/-- C9: a cancellation request arriving at any point of a session that has
faulted nowhere before it makes the session call `proc.terminate()` and
exit with the cancelled status (exit status 0, distinct from the faulted
status); the events dispatched are exactly those of the input before the
interrupt — nothing after cancellation is dispatched. -/
theorem cancellation_clean_exit :
    ∀ {α : Type} (dOf : Json → Except PyErr (List α)) (emit : α → Except PyErr Unit)
      (pre post : List StreamItem),
      (runSession dOf emit pre).ended = .eof →
      runSession dOf emit (pre ++ .interrupt :: post) =
        ⟨(runSession dOf emit pre).dispatched, (runSession dOf emit pre).parseErrors,
         true, .cancelled, 0⟩ ∧
      SessionEnd.cancelled ≠ SessionEnd.faulted := by
  intro α dOf emit pre post
  induction pre with
  | nil =>
    intro h
    exact ⟨rfl, by decide⟩
  | cons it rest ih =>
    intro h
    refine ⟨?_, by decide⟩
    cases it with
    | interrupt =>
      rw [runSession_interrupt] at h
      simp at h
    | line s =>
      cases hstep : lineStep dOf emit s with
      | parseFail =>
        rw [runSession_parseFail _ _ _ rest hstep] at h
        simp at h
        have hm := (ih h).1
        rw [List.cons_append,
            runSession_parseFail _ _ _ (rest ++ .interrupt :: post) hstep,
            runSession_parseFail _ _ _ rest hstep, hm]
      | fault inv =>
        rw [runSession_faultStep _ _ _ inv rest hstep] at h
        simp at h
      | ok inv =>
        rw [runSession_okStep _ _ _ inv rest hstep] at h
        simp at h
        have hm := (ih h).1
        rw [List.cons_append,
            runSession_okStep _ _ _ inv (rest ++ .interrupt :: post) hstep,
            runSession_okStep _ _ _ inv rest hstep, hm]

/-- C9 witness: an interrupt after one well-formed line; the event after
the interrupt is never dispatched. -/
theorem cancellation_clean_exit_witness :
    (monitor_windows printOk [.line lineCreated]).ended = .eof ∧
    monitor_windows printOk ([.line lineCreated] ++ .interrupt :: [.line lineCreated2]) =
      ⟨(monitor_windows printOk [.line lineCreated]).dispatched,
       (monitor_windows printOk [.line lineCreated]).parseErrors,
       true, .cancelled, 0⟩ :=
  ⟨rfl,
   (cancellation_clean_exit monitorDispatchL printOk [.line lineCreated]
      [.line lineCreated2] rfl).1⟩
